import Mathlib

/-!
Verification development for the `ruba` dashboard repository
(`dashboard_app.py`).  The script is a straight-line Streamlit program;
we embed it shallowly as pure Lean functions:

* a row of the spreadsheet is a `Row`; a pandas `DataFrame` is a list of
  rows together with the list of column names actually present (a column
  access on a name not in `cols` raises `KeyError`, modelled with
  `Except`);
* the Streamlit session state (`st.session_state.region_click_filter`,
  `st.session_state.category_click_filter`) is a `SessionState`;
* the two pie-chart click handlers (module level, lines 310-324 and
  353-367 of `dashboard_app.py`) become `handleRegionClick` and
  `handleCategoryClick`: they receive the grouped aggregation table, the
  payload returned by `plotly_events`, and the current session state,
  and return either the new state plus a "st.rerun was called" flag or
  an uncaught `IndexError` (from `DataFrame.iloc` on an out-of-range
  point index);
* the whole top-to-bottom run of the script for one render cycle is
  `runScript`; `ScriptResult` records how the run ended: stopped at the
  empty-load guard (line 52-53), stopped at the empty-filter guard
  (lines 139-141), aborted by `st.rerun` inside a click handler,
  completed normally, or crashed with an uncaught exception.

Numeric cell values are modelled as rationals; pandas group keys are
enumerated with `List.dedup` (pandas sorts group keys, but no property
below depends on the enumeration order, only on the multiset of groups).
Chart figure construction (`px.line`, `px.bar`, styling) is presentation
with no logic; a non-pie chart is recorded by its title only, while the
two clickable pie charts also record the aggregated table they display,
because the properties under study inspect it.
-/

namespace RubaDash

/-- Column name `Region`. -/
def sRegion : String := "Region"

/-- Column name `Category`. -/
def sCategory : String := "Category"

/-- Column name `Supplier`. -/
def sSupplier : String := "Supplier"

/-- Column name `Item`. -/
def sItem : String := "Item"

/-- Column name `Month`. -/
def sMonth : String := "Month"

/-- Column name `Sales Total`. -/
def sSalesTotal : String := "Sales Total"

/-- Column name `Margin`. -/
def sMargin : String := "Margin"

/-- Column name `Sales Qty`. -/
def sSalesQty : String := "Sales Qty"

/-- Column name `Sales Price`. -/
def sSalesPrice : String := "Sales Price"

/-- KPI label of the first metric (line 149). -/
def lTotalSales : String := "Total Sales"

/-- KPI label of the second metric (line 153). -/
def lTotalMargin : String := "Total Margin"

/-- KPI label of the third metric (line 158). -/
def lAvgSalesPrice : String := "Avg. Sales Price"

/-- Title of the time-series chart (line 172). -/
def tTimeSeries : String := "Monthly Sales Total Trend"

/-- Title of the category bar chart (line 201). -/
def tCategoryBar : String := "Sales Total by Product Category"

/-- Title of the top-items bar chart (line 223). -/
def tTopItems : String := "Top 10 Items by Margin"

/-- Title of the regional comparison chart (line 264). -/
def tRegionalComparison : String := "Sales Total vs. Margin by Region"

/-- Title of the clickable region pie chart (line 296). -/
def tRegionPie : String := "Region Wise Sales Percentage (Click to Filter)"

/-- Title of the clickable category pie chart (line 339). -/
def tCategoryPie : String := "Category Wise Margin Distribution (Click to Filter)"

/-- Warning shown when the time-series columns are missing (line 184). -/
def wTimeSeries : String := "Required columns (Month, Sales Total) for Monthly Sales Trend are missing."

/-- Warning shown when the category bar columns are missing (line 212). -/
def wCategoryBar : String := "Required columns (Category, Sales Total) for Category Sales Bar Chart are missing."

/-- Warning shown when the top-items columns are missing (line 239). -/
def wTopItems : String := "Required columns (Item, Margin) for Top 10 Items chart are missing."

/-- Warning shown when the regional comparison columns are missing (line 276). -/
def wRegionalComparison : String := "Required columns (Region, Sales Total, Margin) for Regional Comparison Chart are missing."

/-- Warning shown when the region pie columns are missing (line 327). -/
def wRegionPie : String := "Required columns (Region, Sales Total) for Region Sales Pie Chart are missing."

/-- Warning shown when the category pie columns are missing (line 370). -/
def wCategoryPie : String := "Required columns (Category, Margin) for Category Margin Pie Chart are missing."

/-- Warning shown by the empty-filter guard (line 140). -/
def wNoMatch : String := "No data matches the current filter selection. Please adjust your filters."

/-- Message of a pandas `IndexError` raised by `.iloc` on an out-of-range index. -/
def eIndexError : String := "IndexError"

/-- Message of a pandas `KeyError` raised by a column access on a missing column. -/
def keyErr (c : String) : String := "KeyError: " ++ c

/-- One spreadsheet row.  The five dimension cells are strings, the four
numeric cells are rationals. -/
structure Row where
  region : String
  category : String
  supplier : String
  item : String
  month : String
  salesTotal : ℚ
  margin : ℚ
  salesQty : ℚ
  salesPrice : ℚ
  deriving DecidableEq

/-- A pandas DataFrame: the set of column names actually present in the
sheet, plus the rows.  A cell of a column not listed in `cols` is
inaccessible: reading it raises `KeyError`. -/
structure DataFrame where
  cols : List String
  rows : List Row
  deriving DecidableEq

/-- The numeric series of a named column, row-wise (used under a
`c ∈ cols` check; an unknown name defaults to 0 and is never reached). -/
def numCol (c : String) (r : Row) : ℚ :=
  if c = sSalesTotal then r.salesTotal
  else if c = sMargin then r.margin
  else if c = sSalesQty then r.salesQty
  else if c = sSalesPrice then r.salesPrice
  else 0

/-- `df[c].sum()`: `KeyError` when the column is absent, otherwise the
sum of the column. -/
def seriesSum (df : DataFrame) (c : String) : Except String ℚ :=
  if c ∈ df.cols then Except.ok ((df.rows.map (numCol c)).sum) else Except.error (keyErr c)

/-- `df.groupby(k)[v].sum().reset_index()`: one output row per distinct
key, carrying the sum of `v` over the rows with that key.  (pandas
enumerates group keys in sorted order; we enumerate them with
`List.dedup`.  No property below depends on the enumeration order.) -/
def groupSum (rows : List Row) (key : Row → String) (val : Row → ℚ) : List (String × ℚ) :=
  ((rows.map key).dedup).map (fun k => (k, ((rows.filter (fun r => key r = k)).map val).sum))

/-- The Streamlit session state holding the two chart-click overrides
(lines 14-17): each is `[]` (no override) or a singleton list. -/
structure SessionState where
  region_click_filter : List String
  category_click_filter : List String
  deriving DecidableEq

/-- `reset_chart_filters` (lines 64-66): clears BOTH click overrides. -/
def reset_chart_filters (s : SessionState) : SessionState :=
  { s with region_click_filter := [], category_click_filter := [] }

/-- One element of the list returned by `plotly_events`: a Python dict;
we record its truthiness and its `pointIndex` entry when present. -/
structure ClickPoint where
  truthy : Bool
  pointIndex : Option Int
  deriving DecidableEq

/-- `tbl.iloc[i]` on a table of `tbl.length` rows: a non-negative index
must be below the length, a negative index wraps once from the end, and
anything else raises `IndexError` (modelled by `none`). -/
def iloc (tbl : List (String × ℚ)) (i : Int) : Option (String × ℚ) :=
  if 0 ≤ i ∧ i < (tbl.length : Int) then tbl[i.toNat]?
  else if -(tbl.length : Int) ≤ i ∧ i < 0 then tbl[(i + (tbl.length : Int)).toNat]?
  else none

/-- Region pie click handler (lines 310-324).  `region_sales` is the
aggregation the pie was built from, `selected_region` the payload from
`plotly_events`.  Returns the new session state and whether `st.rerun`
was called, or the uncaught `IndexError` from `.iloc`. -/
def handleRegionClick (region_sales : List (String × ℚ)) (selected_region : List ClickPoint)
    (s : SessionState) : Except String (SessionState × Bool) :=
  match selected_region with
  | [] => Except.ok (s, false)
  | p :: _ =>
    if p.truthy then
      match p.pointIndex with
      | none => Except.ok (s, false)
      | some point_index =>
        match iloc region_sales point_index with
        | none => Except.error eIndexError
        | some row =>
          let clicked_region_name := row.1
          if s.region_click_filter = [] ∨ s.region_click_filter.head? ≠ some clicked_region_name then
            Except.ok ({ s with region_click_filter := [clicked_region_name] }, true)
          else if s.region_click_filter.head? = some clicked_region_name then
            Except.ok (reset_chart_filters s, true)
          else
            Except.ok (s, false)
    else Except.ok (s, false)

/-- Category pie click handler (lines 353-367), identical in shape to
the region handler but acting on `category_click_filter`. -/
def handleCategoryClick (category_margin : List (String × ℚ)) (selected_category : List ClickPoint)
    (s : SessionState) : Except String (SessionState × Bool) :=
  match selected_category with
  | [] => Except.ok (s, false)
  | p :: _ =>
    if p.truthy then
      match p.pointIndex with
      | none => Except.ok (s, false)
      | some point_index =>
        match iloc category_margin point_index with
        | none => Except.error eIndexError
        | some row =>
          let clicked_category_name := row.1
          if s.category_click_filter = [] ∨ s.category_click_filter.head? ≠ some clicked_category_name then
            Except.ok ({ s with category_click_filter := [clicked_category_name] }, true)
          else if s.category_click_filter.head? = some clicked_category_name then
            Except.ok (reset_chart_filters s, true)
          else
            Except.ok (s, false)
    else Except.ok (s, false)

/-- The value currently held by each sidebar multiselect widget (what
the user picked while the widget was enabled; the widget defaults to the
full domain). -/
structure Inputs where
  regions_ms : List String
  categories_ms : List String
  suppliers_ms : List String
  items_ms : List String
  months_ms : List String
  deriving DecidableEq

/-- The five `selected_*` variables of the script after the sidebar
block (lines 81-123). -/
structure Selections where
  selected_regions : List String
  selected_categories : List String
  selected_suppliers : List String
  selected_items : List String
  selected_months : List String
  deriving DecidableEq

/-- The effective selection of a clickable dimension (lines 82-91 and
95-104): when the click override is non-empty (`if st.session_state.x:`
truthiness) it is used verbatim and the sidebar widget is disabled;
otherwise the widget value is used. -/
def effective (clickFilter : List String) (multiselectValue : List String) : List String :=
  if clickFilter = [] then multiselectValue else clickFilter

/-- The selections the sidebar block produces when no column access
fails. -/
def effectiveSelections (inp : Inputs) (s : SessionState) : Selections :=
  { selected_regions := effective s.region_click_filter inp.regions_ms
    selected_categories := effective s.category_click_filter inp.categories_ms
    selected_suppliers := inp.suppliers_ms
    selected_items := inp.items_ms
    selected_months := inp.months_ms }

/-- The sidebar block (lines 81-123).  Each dimension's options are read
with an unguarded column access (`df[...].unique()`), so a missing
dimension column raises `KeyError` in the order the script reads them. -/
def sidebarSelections (df : DataFrame) (inp : Inputs) (s : SessionState) :
    Except String Selections :=
  if sRegion ∉ df.cols then Except.error (keyErr sRegion)
  else if sCategory ∉ df.cols then Except.error (keyErr sCategory)
  else if sSupplier ∉ df.cols then Except.error (keyErr sSupplier)
  else if sItem ∉ df.cols then Except.error (keyErr sItem)
  else if sMonth ∉ df.cols then Except.error (keyErr sMonth)
  else Except.ok (effectiveSelections inp s)

/-- Filter application (lines 126-135): starting from the full row list,
each non-empty selection keeps the rows whose cell is in the selection;
an empty selection imposes no constraint. -/
def applyFilters (rows : List Row) (sel : Selections) : List Row :=
  let d1 := if sel.selected_regions ≠ [] then rows.filter (fun r => r.region ∈ sel.selected_regions) else rows
  let d2 := if sel.selected_categories ≠ [] then d1.filter (fun r => r.category ∈ sel.selected_categories) else d1
  let d3 := if sel.selected_suppliers ≠ [] then d2.filter (fun r => r.supplier ∈ sel.selected_suppliers) else d2
  let d4 := if sel.selected_items ≠ [] then d3.filter (fun r => r.item ∈ sel.selected_items) else d3
  let d5 := if sel.selected_months ≠ [] then d4.filter (fun r => r.month ∈ sel.selected_months) else d4
  d5

/-- One user-visible element produced by the render pass.  Non-pie
charts are recorded by title (their figure construction is pure
presentation); the clickable pies also record the aggregation they
display. -/
inductive Out where
  | metric (label : String) (value : ℚ)
  | chart (title : String)
  | pie (title : String) (data : List (String × ℚ))
  | warning (msg : String)
  | table (rows : List Row)
  deriving DecidableEq

/-- The `avg_sales_price` expression of line 156-157:
`(df_filtered['Sales Total'].sum() / sales_qty_sum) if sales_qty_sum > 0 else 0`,
read off the row list (used when all three numeric columns exist). -/
def avg_sales_price (rows : List Row) : ℚ :=
  let sales_qty_sum := (rows.map Row.salesQty).sum
  if sales_qty_sum > 0 then (rows.map Row.salesTotal).sum / sales_qty_sum else 0

/-- The KPI block (lines 147-158).  Each metric is guarded by a column
check and simply absent (no warning) when its guard fails.  The third
guard checks `Sales Price` and `Sales Qty` but the body reads
`Sales Total` (line 157), so that read can raise `KeyError`. -/
def kpiSection (dff : DataFrame) : Except String (List Out) :=
  let o1 : List Out :=
    if sSalesTotal ∈ dff.cols then
      [Out.metric lTotalSales ((dff.rows.map (numCol sSalesTotal)).sum)]
    else []
  let o2 : List Out :=
    if sMargin ∈ dff.cols then
      [Out.metric lTotalMargin ((dff.rows.map (numCol sMargin)).sum)]
    else []
  if sSalesPrice ∈ dff.cols ∧ sSalesQty ∈ dff.cols then
    let sales_qty_sum := (dff.rows.map (numCol sSalesQty)).sum
    if sales_qty_sum > 0 then
      match seriesSum dff sSalesTotal with
      | Except.error e => Except.error e
      | Except.ok total =>
        Except.ok (o1 ++ o2 ++ [Out.metric lAvgSalesPrice (total / sales_qty_sum)])
    else Except.ok (o1 ++ o2 ++ [Out.metric lAvgSalesPrice 0])
  else Except.ok (o1 ++ o2)

/-- The time-series section (lines 165-184): render the chart when both
columns exist, otherwise show a warning. -/
def timeSeriesSection (dff : DataFrame) : List Out :=
  if sMonth ∈ dff.cols ∧ sSalesTotal ∈ dff.cols then [Out.chart tTimeSeries]
  else [Out.warning wTimeSeries]

/-- The category bar-chart section (lines 193-212). -/
def categoryBarSection (dff : DataFrame) : List Out :=
  if sCategory ∈ dff.cols ∧ sSalesTotal ∈ dff.cols then [Out.chart tCategoryBar]
  else [Out.warning wCategoryBar]

/-- The top-ten-items bar-chart section (lines 215-239). -/
def topItemsSection (dff : DataFrame) : List Out :=
  if sItem ∈ dff.cols ∧ sMargin ∈ dff.cols then [Out.chart tTopItems]
  else [Out.warning wTopItems]

/-- The regional comparison section (lines 246-276). -/
def regionalComparisonSection (dff : DataFrame) : List Out :=
  if sRegion ∈ dff.cols ∧ sSalesTotal ∈ dff.cols ∧ sMargin ∈ dff.cols then
    [Out.chart tRegionalComparison]
  else [Out.warning wRegionalComparison]

/-- The clickable region pie section (lines 287-327).  The aggregation
is built from the FULL dataset `df`, not from `dff` (line 289-290); the
click handler then runs against it.  Returns the outputs, the session
state after the handler, and whether `st.rerun` was called. -/
def regionPieSection (df dff : DataFrame) (payload : List ClickPoint) (s : SessionState) :
    Except String (List Out × SessionState × Bool) :=
  if sRegion ∈ dff.cols ∧ sSalesTotal ∈ dff.cols then do
    let region_sales := groupSum df.rows Row.region (numCol sSalesTotal)
    let (s1, r1) ← handleRegionClick region_sales payload s
    pure ([Out.pie tRegionPie region_sales], s1, r1)
  else Except.ok ([Out.warning wRegionPie], s, false)

/-- The clickable category pie section (lines 330-370), built from the
FULL dataset `df` (line 332-333). -/
def categoryPieSection (df dff : DataFrame) (payload : List ClickPoint) (s : SessionState) :
    Except String (List Out × SessionState × Bool) :=
  if sCategory ∈ dff.cols ∧ sMargin ∈ dff.cols then do
    let category_margin := groupSum df.rows Row.category (numCol sMargin)
    let (s1, r1) ← handleCategoryClick category_margin payload s
    pure ([Out.pie tCategoryPie category_margin], s1, r1)
  else Except.ok ([Out.warning wCategoryPie], s, false)

/-- How one top-to-bottom run of the script ends. -/
inductive ScriptResult where
  | stoppedEmptyLoad
  | stoppedNoMatch (msg : String)
  | rerunRequested (s : SessionState) (outs : List Out)
  | rendered (s : SessionState) (outs : List Out)
  | crashed (err : String)
  deriving DecidableEq

/-- The outputs a run produced (none when it stopped before rendering or
crashed). -/
def ScriptResult.outs : ScriptResult → List Out
  | ScriptResult.rerunRequested _ o => o
  | ScriptResult.rendered _ o => o
  | _ => []

/-- Whether the run ended in an uncaught exception. -/
def ScriptResult.isFatal : ScriptResult → Bool
  | ScriptResult.crashed _ => true
  | _ => false

/-- One full run of `dashboard_app.py` for one render cycle.  `df` is
the table `load_data` returned (a failed load returns an empty table,
line 29/44/47), `inp` the sidebar widget values, `s` the session state
at the start of the run, and the two payloads are what `plotly_events`
reports for each pie this cycle.  The run stops at the empty-load guard
(lines 52-53), builds the sidebar selections, stops at the empty-filter
guard (lines 139-141), renders the sections in script order, and ends
early when a click handler calls `st.rerun`. -/
def runScript (df : DataFrame) (inp : Inputs) (s : SessionState)
    (regionPayload categoryPayload : List ClickPoint) : ScriptResult :=
  if df.rows = [] then ScriptResult.stoppedEmptyLoad
  else
    match sidebarSelections df inp s with
    | Except.error e => ScriptResult.crashed e
    | Except.ok sels =>
      let dff : DataFrame := { cols := df.cols, rows := applyFilters df.rows sels }
      if dff.rows = [] ∧ ¬ df.rows = [] then ScriptResult.stoppedNoMatch wNoMatch
      else
        match kpiSection dff with
        | Except.error e => ScriptResult.crashed e
        | Except.ok kpiOuts =>
          let outs1 := kpiOuts ++ timeSeriesSection dff ++ categoryBarSection dff
              ++ topItemsSection dff ++ regionalComparisonSection dff
          match regionPieSection df dff regionPayload s with
          | Except.error e => ScriptResult.crashed e
          | Except.ok (po1, s1, r1) =>
            if r1 then ScriptResult.rerunRequested s1 (outs1 ++ po1)
            else
              match categoryPieSection df dff categoryPayload s1 with
              | Except.error e => ScriptResult.crashed e
              | Except.ok (po2, s2, r2) =>
                if r2 then ScriptResult.rerunRequested s2 (outs1 ++ po1 ++ po2)
                else ScriptResult.rendered s2 (outs1 ++ po1 ++ po2 ++ [Out.table dff.rows])

/-- A click payload resolves to domain value `w` when its first point is
truthy, carries a `pointIndex`, and `iloc` maps that index to a row of
the aggregation whose name is `w`. -/
def resolvesTo (agg : List (String × ℚ)) (payload : List ClickPoint) (w : String) : Prop :=
  ∃ p rest i q, payload = p :: rest ∧ p.truthy = true ∧ p.pointIndex = some i ∧
    iloc agg i = some (w, q)

/-- The standard full column set of the sheet. -/
def standardCols : List String :=
  [sRegion, sCategory, sSupplier, sItem, sMonth, sSalesTotal, sMargin, sSalesQty, sSalesPrice]

/-- Sample domain value. -/
def wNorth : String := "North"

/-- Sample domain value. -/
def wSouth : String := "South"

/-- Sample domain value. -/
def wTech : String := "Tech"

/-- Sample domain value. -/
def wFurniture : String := "Furniture"

/-- Sample domain value. -/
def wS1 : String := "S1"

/-- Sample domain value. -/
def wI1 : String := "I1"

/-- Sample domain value. -/
def wJan : String := "Jan"

/-- A region name matching no row. -/
def wNowhere : String := "Nowhere"

/-- A sample two-slice aggregation table, as the region pie would show
for a dataset with a North row summing to 100 and a South row summing
to 200. -/
def wAgg : List (String × ℚ) := [(wNorth, 100), (wSouth, 200)]

/-- A truthy click point on slice 0. -/
def pClick0 : ClickPoint := { truthy := true, pointIndex := some 0 }

/-- A truthy click point on slice 1. -/
def pClick1 : ClickPoint := { truthy := true, pointIndex := some 1 }

/-- A truthy click point whose index is outside any two-row aggregation. -/
def pClick5 : ClickPoint := { truthy := true, pointIndex := some 5 }

/-- A truthy click point with no `pointIndex` entry. -/
def pNoIndex : ClickPoint := { truthy := true, pointIndex := none }

/-- A falsy (empty-dict) click point. -/
def pFalsy : ClickPoint := { truthy := false, pointIndex := none }

/-- Payload clicking slice 0. -/
def payload0 : List ClickPoint := [pClick0]

/-- Payload clicking slice 1. -/
def payload1 : List ClickPoint := [pClick1]

/-- Payload with an out-of-range point index. -/
def payload5 : List ClickPoint := [pClick5]

/-- A sample North/Tech row. -/
def rowN : Row :=
  { region := wNorth, category := wTech, supplier := wS1, item := wI1, month := wJan,
    salesTotal := 100, margin := 40, salesQty := 2, salesPrice := 50 }

/-- A sample South/Furniture row. -/
def rowS : Row :=
  { region := wSouth, category := wFurniture, supplier := wS1, item := wI1, month := wJan,
    salesTotal := 200, margin := 80, salesQty := 4, salesPrice := 50 }

/-- A row with a negative quantity (a return), positive sales total. -/
def rowBadQty : Row :=
  { region := wNorth, category := wTech, supplier := wS1, item := wI1, month := wJan,
    salesTotal := 5, margin := 1, salesQty := -1, salesPrice := 5 }

/-- A sample two-row dataset with the full column set. -/
def wDF : DataFrame := { cols := standardCols, rows := [rowN, rowS] }

/-- Sidebar inputs selecting the full domain of every dimension of `wDF`. -/
def wInputsAll : Inputs :=
  { regions_ms := [wNorth, wSouth], categories_ms := [wTech, wFurniture],
    suppliers_ms := [wS1], items_ms := [wI1], months_ms := [wJan] }

/-- Sidebar inputs whose region selection matches no row of `wDF`. -/
def wInputsNowhere : Inputs :=
  { regions_ms := [wNowhere], categories_ms := [wTech, wFurniture],
    suppliers_ms := [wS1], items_ms := [wI1], months_ms := [wJan] }

/-- Sidebar inputs selecting only the South region and Furniture category. -/
def wInputsSouth : Inputs :=
  { regions_ms := [wSouth], categories_ms := [wFurniture],
    suppliers_ms := [wS1], items_ms := [wI1], months_ms := [wJan] }

/-- A dataset whose sheet lacks the `Sales Total` column but has
`Sales Price` and `Sales Qty`, with a positive total quantity. -/
def df7 : DataFrame :=
  { cols := [sRegion, sCategory, sSupplier, sItem, sMonth, sMargin, sSalesQty, sSalesPrice],
    rows := [rowN] }

/-- A filtered table whose sheet lacks the `Month` column. -/
def dffMonthless : DataFrame :=
  { cols := [sRegion, sCategory, sSupplier, sItem, sSalesTotal, sMargin, sSalesQty, sSalesPrice],
    rows := [rowN] }

/-- An empty loaded table (what `load_data` yields on failure, or a
sheet with headers and no data rows). -/
def emptyDF : DataFrame := { cols := standardCols, rows := [] }

-- ------------------------------------------------------------------
-- Theorems
-- ------------------------------------------------------------------

/-- C3 (confirmed): for every clickable dimension whose override is
`Set(v)`, a click resolving to a different domain value `w` yields
override `Set(w)` — a singleton containing only `w`, never a set
containing both `v` and `w` (and the other dimension's override is not
touched on this path). -/
theorem C3_click_replaces_override (agg : List (String × ℚ)) (payload : List ClickPoint)
    (s : SessionState) (v w : String) (hres : resolvesTo agg payload w) (hvw : v ≠ w) :
    (s.region_click_filter = [v] →
      handleRegionClick agg payload s = Except.ok ({ s with region_click_filter := [w] }, true)) ∧
    (s.category_click_filter = [v] →
      handleCategoryClick agg payload s = Except.ok ({ s with category_click_filter := [w] }, true)) := by
  obtain ⟨p, rest, i, q, hp, htr, hpi, hiloc⟩ := hres
  subst hp
  refine ⟨fun hreg => ?_, fun hcat => ?_⟩
  · simp [handleRegionClick, htr, hpi, hiloc, hreg, hvw]
  · simp [handleCategoryClick, htr, hpi, hiloc, hcat, hvw]

/-- C3 witness: with the override on North, clicking the South slice of
the two-slice aggregation replaces the region override by South alone
and leaves the category override untouched. -/
theorem C3_witness :
    resolvesTo wAgg payload1 wSouth ∧
    handleRegionClick wAgg payload1 ⟨[wNorth], [wTech]⟩ =
      Except.ok (⟨[wSouth], [wTech]⟩, true) := by
  have hres : resolvesTo wAgg payload1 wSouth :=
    ⟨pClick1, [], 1, 200, rfl, rfl, rfl, by decide⟩
  exact ⟨hres,
    (C3_click_replaces_override wAgg payload1 ⟨[wNorth], [wTech]⟩ wNorth wSouth hres
      (by decide)).1 rfl⟩

/-- C1 counterexample: with region override North and category override
Tech, clicking the North slice again clears BOTH overrides — the
category override does not stay `[Tech]` as the claim requires, because
the toggle-off branch calls `reset_chart_filters` (lines 64-66,
321-324). -/
theorem C1_counterexample :
    handleRegionClick wAgg payload0 ⟨[wNorth], [wTech]⟩ = Except.ok (⟨[], []⟩, true) ∧
    ([] : List String) ≠ [wTech] :=
  ⟨rfl, by decide⟩

/-- C1 (amended): when a clickable dimension's override is `Set(v)` and
the user clicks the same value `v` again, the handler invokes the
global reset: BOTH clickable dimensions' overrides transition to
`Unset`, and a re-render is triggered. -/
theorem C1_toggle_off_resets_both (agg : List (String × ℚ)) (payload : List ClickPoint)
    (s : SessionState) (v : String) (hres : resolvesTo agg payload v) :
    (s.region_click_filter = [v] →
      handleRegionClick agg payload s = Except.ok (⟨[], []⟩, true)) ∧
    (s.category_click_filter = [v] →
      handleCategoryClick agg payload s = Except.ok (⟨[], []⟩, true)) := by
  obtain ⟨p, rest, i, q, hp, htr, hpi, hiloc⟩ := hres
  subst hp
  refine ⟨fun hreg => ?_, fun hcat => ?_⟩
  · simp [handleRegionClick, htr, hpi, hiloc, hreg, reset_chart_filters]
  · simp [handleCategoryClick, htr, hpi, hiloc, hcat, reset_chart_filters]

/-- C1 witness: with region override North (category override
Furniture), clicking the North slice again yields the fully reset
state and a re-render. -/
theorem C1_witness :
    resolvesTo wAgg payload0 wNorth ∧
    handleRegionClick wAgg payload0 ⟨[wNorth], [wFurniture]⟩ = Except.ok (⟨[], []⟩, true) := by
  have hres : resolvesTo wAgg payload0 wNorth :=
    ⟨pClick0, [], 0, 100, rfl, rfl, rfl, by decide⟩
  exact ⟨hres,
    (C1_toggle_off_resets_both wAgg payload0 ⟨[wNorth], [wFurniture]⟩ wNorth hres).1 rfl⟩

/-- C2 counterexample: starting from a state whose region override is
already `Set(North)`, clicking North twice in succession first clears
the override and then sets it back, so the click sequence ends at
`Set(North)`, not `Unset`. -/
theorem C2_counterexample :
    handleRegionClick wAgg payload0 ⟨[wNorth], []⟩ = Except.ok (⟨[], []⟩, true) ∧
    handleRegionClick wAgg payload0 ⟨[], []⟩ = Except.ok (⟨[wNorth], []⟩, true) ∧
    [wNorth] ≠ ([] : List String) :=
  ⟨rfl, rfl, by decide⟩

/-- C2 (amended): clicking the same domain value `v` twice in
succession returns the dimension's override to `Unset`, provided the
override was not already `Set(v)` before the first click (otherwise the
two clicks toggle it off and then back on, ending at `Set(v)`). -/
theorem C2_double_click_toggles (agg : List (String × ℚ)) (payload : List ClickPoint)
    (s : SessionState) (v : String) (hres : resolvesTo agg payload v) :
    (s.region_click_filter.head? ≠ some v →
      handleRegionClick agg payload s =
        Except.ok ({ s with region_click_filter := [v] }, true) ∧
      handleRegionClick agg payload { s with region_click_filter := [v] } =
        Except.ok (reset_chart_filters { s with region_click_filter := [v] }, true) ∧
      (reset_chart_filters { s with region_click_filter := [v] }).region_click_filter = []) ∧
    (s.category_click_filter.head? ≠ some v →
      handleCategoryClick agg payload s =
        Except.ok ({ s with category_click_filter := [v] }, true) ∧
      handleCategoryClick agg payload { s with category_click_filter := [v] } =
        Except.ok (reset_chart_filters { s with category_click_filter := [v] }, true) ∧
      (reset_chart_filters { s with category_click_filter := [v] }).category_click_filter = []) := by
  obtain ⟨p, rest, i, q, hp, htr, hpi, hiloc⟩ := hres
  subst hp
  refine ⟨fun hne => ⟨?_, ?_, rfl⟩, fun hne => ⟨?_, ?_, rfl⟩⟩
  · simp [handleRegionClick, htr, hpi, hiloc, hne]
  · simp [handleRegionClick, htr, hpi, hiloc]
  · simp [handleCategoryClick, htr, hpi, hiloc, hne]
  · simp [handleCategoryClick, htr, hpi, hiloc]

/-- C2 witness: from a state with no region override, clicking North
twice first sets `Set(North)` and then returns the region override to
`Unset`. -/
theorem C2_witness :
    ((⟨[], [wTech]⟩ : SessionState).region_click_filter.head? ≠ some wNorth) ∧
    handleRegionClick wAgg payload0 ⟨[], [wTech]⟩ = Except.ok (⟨[wNorth], [wTech]⟩, true) ∧
    handleRegionClick wAgg payload0 ⟨[wNorth], [wTech]⟩ = Except.ok (⟨[], []⟩, true) := by
  have hres : resolvesTo wAgg payload0 wNorth :=
    ⟨pClick0, [], 0, 100, rfl, rfl, rfl, by decide⟩
  have h := (C2_double_click_toggles wAgg payload0 ⟨[], [wTech]⟩ wNorth hres).1 (by decide)
  exact ⟨by decide, h.1, h.2.1⟩

/-- C6 counterexample: a click payload whose `pointIndex` (5) does not
correspond to a row of the two-row aggregation is NOT silently ignored:
`.iloc` raises an uncaught `IndexError`, contradicting the claim that
no error is raised or surfaced. -/
theorem C6_counterexample :
    handleRegionClick wAgg payload5 ⟨[], []⟩ = Except.error eIndexError ∧
    Except.error eIndexError ≠
      (Except.ok (⟨[], []⟩, false) : Except String (SessionState × Bool)) :=
  ⟨rfl, fun h => nomatch h⟩

/-- C6 (amended): a click event whose payload is empty, whose first
point is falsy, or whose first point lacks a `pointIndex` entry is
silently ignored — no override changes, no re-render, no error; but a
`pointIndex` outside the row range of the aggregation raises an
uncaught `IndexError` instead of being ignored. -/
theorem C6_unmappable_clicks (agg : List (String × ℚ)) (payload : List ClickPoint)
    (s : SessionState) :
    (payload = [] ∨ (∃ p rest, payload = p :: rest ∧ (p.truthy = false ∨ p.pointIndex = none)) →
      handleRegionClick agg payload s = Except.ok (s, false) ∧
      handleCategoryClick agg payload s = Except.ok (s, false)) ∧
    (∀ p rest i, payload = p :: rest → p.truthy = true → p.pointIndex = some i →
      iloc agg i = none →
      handleRegionClick agg payload s = Except.error eIndexError ∧
      handleCategoryClick agg payload s = Except.error eIndexError) := by
  constructor
  · rintro (rfl | ⟨p, rest, rfl, hp | hp⟩)
    · exact ⟨rfl, rfl⟩
    · exact ⟨by simp [handleRegionClick, hp], by simp [handleCategoryClick, hp]⟩
    · have : p.truthy = true ∨ p.truthy = false := by
        cases p.truthy
        · exact Or.inr rfl
        · exact Or.inl rfl
      rcases this with ht | ht
      · exact ⟨by simp [handleRegionClick, ht, hp], by simp [handleCategoryClick, ht, hp]⟩
      · exact ⟨by simp [handleRegionClick, ht], by simp [handleCategoryClick, ht]⟩
  · rintro p rest i rfl htr hpi hiloc
    exact ⟨by simp [handleRegionClick, htr, hpi, hiloc],
      by simp [handleCategoryClick, htr, hpi, hiloc]⟩

/-- C6 witness: an empty click payload leaves the session state exactly
as it was, with no re-render and no error, for both handlers. -/
theorem C6_witness :
    handleRegionClick wAgg [] ⟨[wNorth], []⟩ = Except.ok (⟨[wNorth], []⟩, false) ∧
    handleCategoryClick wAgg [] ⟨[wNorth], []⟩ = Except.ok (⟨[wNorth], []⟩, false) :=
  (C6_unmappable_clicks wAgg [] ⟨[wNorth], []⟩).1 (Or.inl rfl)

/-- C4 (confirmed): whenever a clickable dimension's click override is
present, the selection fed to the row-filtering step for that dimension
is exactly the override, whatever value the sidebar multiselect holds —
the sidebar widget value for that dimension has no effect while the
override is present. -/
theorem C4_override_precedence (df : DataFrame) (inp : Inputs) (s : SessionState)
    (v w : String) (sels : Selections)
    (hok : sidebarSelections df inp s = Except.ok sels) :
    (s.region_click_filter = [v] → sels.selected_regions = [v]) ∧
    (s.category_click_filter = [w] → sels.selected_categories = [w]) := by
  have hsels : sels = effectiveSelections inp s := by
    unfold sidebarSelections at hok
    repeat' split at hok
    all_goals simp_all
  subst hsels
  constructor
  · intro h
    simp [effectiveSelections, effective, h]
  · intro h
    simp [effectiveSelections, effective, h]

/-- C4 witness: with override North/Tech and a sidebar currently
holding South/Furniture, the selections used for filtering are the
overrides, not the sidebar values. -/
theorem C4_witness :
    sidebarSelections wDF wInputsSouth ⟨[wNorth], [wTech]⟩ =
      Except.ok (effectiveSelections wInputsSouth ⟨[wNorth], [wTech]⟩) ∧
    (effectiveSelections wInputsSouth ⟨[wNorth], [wTech]⟩).selected_regions = [wNorth] ∧
    (effectiveSelections wInputsSouth ⟨[wNorth], [wTech]⟩).selected_categories = [wTech] := by
  have h := C4_override_precedence wDF wInputsSouth ⟨[wNorth], [wTech]⟩ wNorth wTech
    (effectiveSelections wInputsSouth ⟨[wNorth], [wTech]⟩) rfl
  exact ⟨rfl, h.1 rfl, h.2 rfl⟩

/-- C9 counterexample: on a filtered table whose `Sales Qty` sum is
negative (a single return row, quantity -1), the metric is 0 while the
claimed quotient of sums is -5, because the code guards on
`sales_qty_sum > 0`, not on the sum being zero. -/
theorem C9_counterexample :
    avg_sales_price [rowBadQty] ≠
      (([rowBadQty].map Row.salesTotal).sum / ([rowBadQty].map Row.salesQty).sum) := by
  norm_num [avg_sales_price, rowBadQty]

/-- C9 (amended): the average sales price equals the sum of
`Sales Total` divided by the sum of `Sales Qty` whenever the quantity
sum is positive, and equals exactly zero whenever the quantity sum is
zero or negative (the code falls back to 0 for every non-positive
denominator, not only for zero). -/
theorem C9_avg_sales_price_cases (rows : List Row) :
    ((rows.map Row.salesQty).sum > 0 →
      avg_sales_price rows = (rows.map Row.salesTotal).sum / (rows.map Row.salesQty).sum) ∧
    ((rows.map Row.salesQty).sum = 0 → avg_sales_price rows = 0) ∧
    ((rows.map Row.salesQty).sum < 0 → avg_sales_price rows = 0) := by
  unfold avg_sales_price
  refine ⟨fun h => by simp [h], fun h => by simp [h], fun h => ?_⟩
  simp [not_lt.mpr (le_of_lt h)]

/-- C9 witness: on the sample one-row table the quantity sum 2 is
positive and the metric is the quotient of sums. -/
theorem C9_witness :
    (([rowN].map Row.salesQty).sum > 0) ∧
    avg_sales_price [rowN] = (([rowN].map Row.salesTotal).sum / ([rowN].map Row.salesQty).sum) :=
  ⟨by norm_num [rowN], (C9_avg_sales_price_cases [rowN]).1 (by norm_num [rowN])⟩

/-- C10 (confirmed): when the loaded table has zero rows the run stops
at the empty-DataFrame guard, producing no sidebar selection, metric,
chart, or data preview — the same terminal result as a failed load,
which also yields an empty table. -/
theorem C10_empty_load_stops (df : DataFrame) (inp : Inputs) (s : SessionState)
    (rp cp : List ClickPoint) (h : df.rows = []) :
    runScript df inp s rp cp = ScriptResult.stoppedEmptyLoad := by
  simp [runScript, h]

/-- C10 witness: a run over a concrete empty table stops at the
empty-load guard. -/
theorem C10_witness :
    emptyDF.rows = [] ∧
    runScript emptyDF wInputsAll ⟨[], []⟩ [] [] = ScriptResult.stoppedEmptyLoad :=
  ⟨rfl, C10_empty_load_stops emptyDF wInputsAll ⟨[], []⟩ [] [] rfl⟩

/-- C8 (confirmed): when the filtered table is empty while the full
dataset is not, the run ends at the empty-filter guard with the
no-matching-rows warning, before any KPI, chart, or table is produced —
a valid terminal state, not an error. -/
theorem C8_empty_filter_stops (df : DataFrame) (inp : Inputs) (s : SessionState)
    (rp cp : List ClickPoint) (sels : Selections)
    (hok : sidebarSelections df inp s = Except.ok sels)
    (hne : df.rows ≠ [])
    (hflt : applyFilters df.rows sels = []) :
    runScript df inp s rp cp = ScriptResult.stoppedNoMatch wNoMatch := by
  simp [runScript, hne, hok, hflt]

/-- C8 witness: on the sample dataset with a sidebar region selection
matching no row, the run stops with the no-matching-rows warning. -/
theorem C8_witness :
    wDF.rows ≠ [] ∧
    applyFilters wDF.rows (effectiveSelections wInputsNowhere ⟨[], []⟩) = [] ∧
    runScript wDF wInputsNowhere ⟨[], []⟩ [] [] = ScriptResult.stoppedNoMatch wNoMatch :=
  ⟨by decide, by decide,
    C8_empty_filter_stops wDF wInputsNowhere ⟨[], []⟩ [] []
      (effectiveSelections wInputsNowhere ⟨[], []⟩) rfl (by decide) (by decide)⟩

/-- The projection of a grouped aggregation onto its key column is the
deduplicated key list. -/
theorem groupSum_fst (rows : List Row) (key : Row → String) (val : Row → ℚ) :
    (groupSum rows key val).map Prod.fst = (rows.map key).dedup := by
  simp [groupSum, List.map_map, Function.comp_def]

/-- When the five dimension columns are present, the sidebar block
succeeds and yields the effective selections. -/
theorem sidebarSelections_eq_ok (df : DataFrame) (inp : Inputs) (s : SessionState)
    (h1 : sRegion ∈ df.cols) (h2 : sCategory ∈ df.cols) (h3 : sSupplier ∈ df.cols)
    (h4 : sItem ∈ df.cols) (h5 : sMonth ∈ df.cols) :
    sidebarSelections df inp s = Except.ok (effectiveSelections inp s) := by
  simp [sidebarSelections, h1, h2, h3, h4, h5]

/-- When the `Sales Total` column is present the KPI block cannot raise. -/
theorem kpiSection_isOk (dff : DataFrame) (hST : sSalesTotal ∈ dff.cols) :
    ∃ l, kpiSection dff = Except.ok l := by
  by_cases h2 : sMargin ∈ dff.cols <;>
    by_cases h3 : sSalesPrice ∈ dff.cols ∧ sSalesQty ∈ dff.cols <;>
    by_cases h4 : (0 : ℚ) < (dff.rows.map (numCol sSalesQty)).sum
  all_goals
    simp [kpiSection, seriesSum, hST, h2, h3, h4, gt_iff_lt]

/-- C5 (confirmed): for every filter state (sidebar values and click
overrides), the two clickable pie charts are aggregated from the full,
unfiltered dataset — their displayed tables depend only on `df.rows`,
never on the filtered table — and every domain value of the dataset
appears among the slices, so it remains clickable while a filter is
active. -/
theorem C5_pies_use_full_dataset (df : DataFrame) (inp : Inputs) (s : SessionState)
    (hcols : df.cols = standardCols) (hne : df.rows ≠ [])
    (hflt : applyFilters df.rows (effectiveSelections inp s) ≠ []) :
    Out.pie tRegionPie (groupSum df.rows Row.region (numCol sSalesTotal)) ∈
      (runScript df inp s [] []).outs ∧
    Out.pie tCategoryPie (groupSum df.rows Row.category (numCol sMargin)) ∈
      (runScript df inp s [] []).outs ∧
    (∀ r ∈ df.rows, r.region ∈ (groupSum df.rows Row.region (numCol sSalesTotal)).map Prod.fst) ∧
    (∀ r ∈ df.rows, r.category ∈ (groupSum df.rows Row.category (numCol sMargin)).map Prod.fst) := by
  have h1 : sRegion ∈ df.cols := by rw [hcols]; decide
  have h2 : sCategory ∈ df.cols := by rw [hcols]; decide
  have h3 : sSupplier ∈ df.cols := by rw [hcols]; decide
  have h4 : sItem ∈ df.cols := by rw [hcols]; decide
  have h5 : sMonth ∈ df.cols := by rw [hcols]; decide
  have h6 : sSalesTotal ∈ df.cols := by rw [hcols]; decide
  have h7 : sMargin ∈ df.cols := by rw [hcols]; decide
  have hok := sidebarSelections_eq_ok df inp s h1 h2 h3 h4 h5
  obtain ⟨l, hkpi⟩ :=
    kpiSection_isOk ⟨df.cols, applyFilters df.rows (effectiveSelections inp s)⟩ h6
  have hrp : regionPieSection df ⟨df.cols, applyFilters df.rows (effectiveSelections inp s)⟩ [] s =
      Except.ok ([Out.pie tRegionPie (groupSum df.rows Row.region (numCol sSalesTotal))], s, false) := by
    simp [regionPieSection, handleRegionClick, h1, h6]
  have hcp : categoryPieSection df ⟨df.cols, applyFilters df.rows (effectiveSelections inp s)⟩ [] s =
      Except.ok ([Out.pie tCategoryPie (groupSum df.rows Row.category (numCol sMargin))], s, false) := by
    simp [categoryPieSection, handleCategoryClick, h2, h7]
  refine ⟨?_, ?_, ?_, ?_⟩
  · simp [runScript, hne, hok, hflt, hkpi, hrp, hcp, ScriptResult.outs]
  · simp [runScript, hne, hok, hflt, hkpi, hrp, hcp, ScriptResult.outs]
  · intro r hr
    rw [groupSum_fst]
    exact List.mem_dedup.mpr (List.mem_map_of_mem _ hr)
  · intro r hr
    rw [groupSum_fst]
    exact List.mem_dedup.mpr (List.mem_map_of_mem _ hr)

/-- C5 witness: on the sample dataset with the region override set to
North (so a filter is active and the filtered table is the single North
row), the rendered region pie still shows the full two-slice
aggregation built from the unfiltered dataset. -/
theorem C5_witness :
    wDF.cols = standardCols ∧ wDF.rows ≠ [] ∧
    applyFilters wDF.rows (effectiveSelections wInputsAll ⟨[wNorth], []⟩) ≠ [] ∧
    Out.pie tRegionPie (groupSum wDF.rows Row.region (numCol sSalesTotal)) ∈
      (runScript wDF wInputsAll ⟨[wNorth], []⟩ [] []).outs :=
  ⟨rfl, by decide, by decide,
    (C5_pies_use_full_dataset wDF wInputsAll ⟨[wNorth], []⟩ rfl (by decide) (by decide)).1⟩

/-- C7 counterexample: a dataset that has `Sales Price` and `Sales Qty`
but lacks `Sales Total` (with positive total quantity) makes the render
pass crash with an uncaught `KeyError`: the third KPI's guard (line 155)
checks `Sales Price`/`Sales Qty` while its body (line 157) reads
`Sales Total`.  A missing optional column is therefore fatal here,
contrary to the claim. -/
theorem C7_counterexample :
    runScript df7 wInputsAll ⟨[], []⟩ [] [] = ScriptResult.crashed (keyErr sSalesTotal) ∧
    (ScriptResult.crashed (keyErr sSalesTotal)).isFatal = true := by
  have hok : sidebarSelections df7 wInputsAll ⟨[], []⟩ =
      Except.ok (effectiveSelections wInputsAll ⟨[], []⟩) :=
    sidebarSelections_eq_ok _ _ _ (by decide) (by decide) (by decide) (by decide) (by decide)
  have hflt : applyFilters df7.rows (effectiveSelections wInputsAll ⟨[], []⟩) = [rowN] := by
    decide
  have e1 : ("Sales Qty" : String) ≠ "Sales Total" := by decide
  have e2 : ("Sales Qty" : String) ≠ "Margin" := by decide
  have hq : (0 : ℚ) < numCol sSalesQty rowN := by
    norm_num [rowN, numCol, sSalesQty, sSalesTotal, sMargin, e1, e2]
  have hkpi : kpiSection ⟨df7.cols, [rowN]⟩ = Except.error (keyErr sSalesTotal) := by
    have h1 : sSalesTotal ∉ df7.cols := by decide
    have h2 : sMargin ∈ df7.cols := by decide
    have h3 : sSalesPrice ∈ df7.cols ∧ sSalesQty ∈ df7.cols := by decide
    simp [kpiSection, seriesSum, h1, h2, h3, hq, gt_iff_lt]
  have hne : df7.rows ≠ [] := by decide
  refine ⟨?_, rfl⟩
  simp [runScript, hne, hok, hflt, hkpi]

/-- C7 (amended): a chart section whose required columns are missing is
skipped with a warning, and renders normally when they are present; a
KPI metric whose required columns are missing is skipped silently, with
no warning; and no missing optional column is fatal EXCEPT that the KPI
block raises a `KeyError` exactly when `Sales Price` and `Sales Qty`
are present, `Sales Total` is absent, and the quantity sum is positive
(its guard checks a column its body does not read). -/
theorem C7_missing_column_behaviour (dff : DataFrame) :
    ((∃ e, kpiSection dff = Except.error e) ↔
      (sSalesPrice ∈ dff.cols ∧ sSalesQty ∈ dff.cols ∧ sSalesTotal ∉ dff.cols ∧
        (dff.rows.map (numCol sSalesQty)).sum > 0)) ∧
    (∀ l m, kpiSection dff = Except.ok l → Out.warning m ∉ l) ∧
    (sSalesTotal ∉ dff.cols → ∀ l v, kpiSection dff = Except.ok l →
      Out.metric lTotalSales v ∉ l) ∧
    (sSalesTotal ∈ dff.cols → ∀ l, kpiSection dff = Except.ok l →
      Out.metric lTotalSales ((dff.rows.map (numCol sSalesTotal)).sum) ∈ l) ∧
    (sMargin ∉ dff.cols → ∀ l v, kpiSection dff = Except.ok l →
      Out.metric lTotalMargin v ∉ l) ∧
    (sMargin ∈ dff.cols → ∀ l, kpiSection dff = Except.ok l →
      Out.metric lTotalMargin ((dff.rows.map (numCol sMargin)).sum) ∈ l) ∧
    (¬ (sMonth ∈ dff.cols ∧ sSalesTotal ∈ dff.cols) →
      timeSeriesSection dff = [Out.warning wTimeSeries]) ∧
    ((sMonth ∈ dff.cols ∧ sSalesTotal ∈ dff.cols) →
      timeSeriesSection dff = [Out.chart tTimeSeries]) ∧
    (¬ (sCategory ∈ dff.cols ∧ sSalesTotal ∈ dff.cols) →
      categoryBarSection dff = [Out.warning wCategoryBar]) ∧
    ((sCategory ∈ dff.cols ∧ sSalesTotal ∈ dff.cols) →
      categoryBarSection dff = [Out.chart tCategoryBar]) ∧
    (¬ (sItem ∈ dff.cols ∧ sMargin ∈ dff.cols) →
      topItemsSection dff = [Out.warning wTopItems]) ∧
    ((sItem ∈ dff.cols ∧ sMargin ∈ dff.cols) →
      topItemsSection dff = [Out.chart tTopItems]) ∧
    (¬ (sRegion ∈ dff.cols ∧ sSalesTotal ∈ dff.cols ∧ sMargin ∈ dff.cols) →
      regionalComparisonSection dff = [Out.warning wRegionalComparison]) ∧
    ((sRegion ∈ dff.cols ∧ sSalesTotal ∈ dff.cols ∧ sMargin ∈ dff.cols) →
      regionalComparisonSection dff = [Out.chart tRegionalComparison]) ∧
    (∀ df payload s, ¬ (sRegion ∈ dff.cols ∧ sSalesTotal ∈ dff.cols) →
      regionPieSection df dff payload s = Except.ok ([Out.warning wRegionPie], s, false)) ∧
    (∀ df payload s, ¬ (sCategory ∈ dff.cols ∧ sMargin ∈ dff.cols) →
      categoryPieSection df dff payload s = Except.ok ([Out.warning wCategoryPie], s, false)) := by
  refine ⟨⟨?_, ?_⟩, ?_, ?_, ?_, ?_, ?_, ?_, ?_, ?_, ?_, ?_, ?_, ?_, ?_, ?_, ?_⟩
  · rintro ⟨e, he⟩
    by_cases hPQ : sSalesPrice ∈ dff.cols ∧ sSalesQty ∈ dff.cols
    · by_cases hq : (0 : ℚ) < (dff.rows.map (numCol sSalesQty)).sum
      · by_cases hST : sSalesTotal ∈ dff.cols
        · simp [kpiSection, seriesSum, hPQ, hq, hST, gt_iff_lt] at he
        · exact ⟨hPQ.1, hPQ.2, hST, hq⟩
      · simp [kpiSection, seriesSum, hPQ, hq, gt_iff_lt] at he
    · simp [kpiSection, hPQ] at he
  · rintro ⟨hP, hQ, hST, hq⟩
    exact ⟨keyErr sSalesTotal,
      by simp [kpiSection, seriesSum, hP, hQ, hST, gt_iff_lt.mpr hq, gt_iff_lt, hq]⟩
  · intro l m hok
    by_cases hST : sSalesTotal ∈ dff.cols <;>
    by_cases hM : sMargin ∈ dff.cols <;>
    by_cases hPQ : sSalesPrice ∈ dff.cols ∧ sSalesQty ∈ dff.cols <;>
    by_cases hq : (0 : ℚ) < (dff.rows.map (numCol sSalesQty)).sum <;>
    simp [kpiSection, seriesSum, hST, hM, hPQ, hq, gt_iff_lt] at hok <;>
    (try subst hok) <;> simp
  · intro hST l v hok
    by_cases hM : sMargin ∈ dff.cols <;>
    by_cases hPQ : sSalesPrice ∈ dff.cols ∧ sSalesQty ∈ dff.cols <;>
    by_cases hq : (0 : ℚ) < (dff.rows.map (numCol sSalesQty)).sum <;>
    simp [kpiSection, seriesSum, hST, hM, hPQ, hq, gt_iff_lt] at hok <;>
    (try subst hok) <;> simp [lTotalSales, lTotalMargin, lAvgSalesPrice]
  · intro hST l hok
    by_cases hM : sMargin ∈ dff.cols <;>
    by_cases hPQ : sSalesPrice ∈ dff.cols ∧ sSalesQty ∈ dff.cols <;>
    by_cases hq : (0 : ℚ) < (dff.rows.map (numCol sSalesQty)).sum <;>
    simp [kpiSection, seriesSum, hST, hM, hPQ, hq, gt_iff_lt] at hok <;>
    (try subst hok) <;> simp
  · intro hM l v hok
    by_cases hST : sSalesTotal ∈ dff.cols <;>
    by_cases hPQ : sSalesPrice ∈ dff.cols ∧ sSalesQty ∈ dff.cols <;>
    by_cases hq : (0 : ℚ) < (dff.rows.map (numCol sSalesQty)).sum <;>
    simp [kpiSection, seriesSum, hST, hM, hPQ, hq, gt_iff_lt] at hok <;>
    (try subst hok) <;> simp [lTotalSales, lTotalMargin, lAvgSalesPrice]
  · intro hM l hok
    by_cases hST : sSalesTotal ∈ dff.cols <;>
    by_cases hPQ : sSalesPrice ∈ dff.cols ∧ sSalesQty ∈ dff.cols <;>
    by_cases hq : (0 : ℚ) < (dff.rows.map (numCol sSalesQty)).sum <;>
    simp [kpiSection, seriesSum, hST, hM, hPQ, hq, gt_iff_lt] at hok <;>
    (try subst hok) <;> simp
  · intro h
    simp [timeSeriesSection, h]
  · intro h
    simp [timeSeriesSection, h]
  · intro h
    simp [categoryBarSection, h]
  · intro h
    simp [categoryBarSection, h]
  · intro h
    simp [topItemsSection, h]
  · intro h
    simp [topItemsSection, h]
  · intro h
    simp [regionalComparisonSection, h]
  · intro h
    simp [regionalComparisonSection, h]
  · intro df payload s h
    simp [regionPieSection, h]
  · intro df payload s h
    simp [categoryPieSection, h]

/-- C7 witness: on a concrete filtered table lacking the `Month`
column, the time-series section is skipped with its warning. -/
theorem C7_witness :
    (¬ (sMonth ∈ dffMonthless.cols ∧ sSalesTotal ∈ dffMonthless.cols)) ∧
    timeSeriesSection dffMonthless = [Out.warning wTimeSeries] :=
  ⟨by decide, (C7_missing_column_behaviour dffMonthless).2.2.2.2.2.2.1 (by decide)⟩

end RubaDash
